import Mathlib

/-!
# Verification of the SignalR machine-hub client page (`src/app/page.tsx`)

Shallow embedding of the page-level controller in `src/app/page.tsx`:

* the inbound-update handler registered for `"ReceiveMachineUpdate"` and the
  bounded, newest-first log buffer it maintains (lines 71-80),
* the pure status-to-icon and status-to-color mappings `getStatusIcon`
  (lines 144-163) and `getStatusColor` (lines 165-187),
* the connection lifecycle: `connectToHub` (lines 52-113), `disconnectFromHub`
  (lines 115-129), `clearLogs` (lines 131-133), the transport lifecycle
  callbacks (`onclose`, `onreconnecting`, `onreconnected`, lines 83-98), and
  the UI gating of the connect/disconnect buttons (lines 240-248).

Modelling conventions:

* React `useState` cells and the `connectionRef` ref are fields of a `World`
  record; each event handler is a function `World → World` (single-threaded
  run-to-completion semantics, as in the browser event loop).
* The async `connectToHub` is split at its `await newConnection.start()`
  (line 101): `connectToHub` performs everything up to and including issuing
  the start call (recorded in `pendingStart`), and `resolveStart ok` is the
  continuation that runs when the handshake resolves (lines 104-107 on
  success, the `catch` block of lines 108-112 on failure).
* Transport connections constructed by `new HubConnectionBuilder()...build()`
  are identified by a fresh `Nat` id; `conns` records every constructed
  connection with its URL, and `live` records the ids of transports that
  started successfully and have not been stopped or closed — the "live
  transport connections" of the spec.
* `timestamp` stores the arrival instant (`new Date().toISOString()`,
  line 76) as the underlying numeric instant (`Nat` milliseconds), so that
  "strictly later" is the arithmetic order; ISO-8601 rendering is an
  order-preserving encoding of that number.
* `alert(...)` calls are modelled by prepending the message to an `alerts`
  list; `console.log`/`console.error` diagnostics are not modelled (they
  alter no state).
* All functions are total, mirroring the fact that no handler in the source
  lets an exception escape: the only guarded access is `response &&
  response.data`, modelled with `Option`.
-/

/-- The `StatusSummary` interface (lines 12-29): named numeric counters. -/
structure StatusSummary where
  Online : Nat
  Offline : Nat
  Warning : Nat
  InProduction : Nat
  Error : Nat
  Other : Nat
  Idle : Nat
  MachineAlarm : Nat
  OperationStop : Nat
  Active : Nat
  PalletChange : Nat
  Running : Nat
  InCycle : Nat
  Emergency : Nat
  Available : Nat
  Inactive : Nat
deriving DecidableEq, Repr

/-- The `MachineLog` interface (lines 31-41).  `timestamp` is optional in the
source (`timestamp?: string`); inserted records always carry the arrival
instant. -/
structure MachineLog where
  id : String
  machineId : String
  customerId : String
  name : String
  userId : String
  color : String
  status : String
  statusSummary : Option StatusSummary := none
  timestamp : Option Nat := none
deriving DecidableEq, Repr

/-- The payload envelope of a `"ReceiveMachineUpdate"` push event: the handler
reads `response.data` (line 73).  A missing `data` field is `none`. -/
structure UpdateResponse where
  data : Option MachineLog
deriving DecidableEq, Repr

/-- The `"ReceiveMachineUpdate"` handler body (lines 71-80): if
`response && response.data`, build `{...response.data, timestamp: now}` and
run `setLogs(prev => [log, ...prev.slice(0, 49)])`; otherwise do nothing.
The whole inbound payload (`response: any`) is `Option UpdateResponse`, since
the handler guards against a null/undefined payload. -/
def onReceiveMachineUpdate (response : Option UpdateResponse) (now : Nat)
    (prevLogs : List MachineLog) : List MachineLog :=
  match response with
  | some r =>
    match r.data with
    | some d => { d with timestamp := some now } :: prevLogs.take 49
    | none => prevLogs
  | none => prevLogs

/-- Deliver a sequence of inbound update events (payload, arrival instant) to
the handler, starting from a given buffer. -/
def runUpdates (events : List (Option UpdateResponse × Nat))
    (logs : List MachineLog) : List MachineLog :=
  events.foldl (fun buf e => onReceiveMachineUpdate e.1 e.2 buf) logs

/-- The three icon values `getStatusIcon` can return (lines 144-163): a green
`CheckCircle`, a red `XCircle`, or a yellow `AlertCircle` (the `warning`/
`idle` case and the `default` case return the identical element). -/
inductive Icon where
  | checkCircleGreen
  | xCircleRed
  | alertCircleYellow
deriving DecidableEq, Repr

/-- `status.toLowerCase()` (lines 145 and 166), written over the character
list so it evaluates by kernel reduction (extensionally the same as mapping
`Char.toLower` over the string). -/
def toLowerStr (s : String) : String :=
  String.mk (s.data.map Char.toLower)

/-- `getStatusIcon` (lines 144-163): a `switch` on `status.toLowerCase()`,
written as the equivalent if-chain over the case labels. -/
def getStatusIcon (status : String) : Icon :=
  if toLowerStr status = "completed" ∨ toLowerStr status = "success" ∨
      toLowerStr status = "online" ∨ toLowerStr status = "running" ∨
      toLowerStr status = "active" then
    Icon.checkCircleGreen
  else if toLowerStr status = "error" ∨ toLowerStr status = "failed" ∨
      toLowerStr status = "offline" ∨ toLowerStr status = "emergency" then
    Icon.xCircleRed
  else if toLowerStr status = "warning" ∨ toLowerStr status = "idle" then
    Icon.alertCircleYellow
  else
    Icon.alertCircleYellow

/-- `getStatusColor` (lines 165-187): a `switch` on `status.toLowerCase()`
returning CSS class strings, written as the equivalent if-chain. -/
def getStatusColor (status : String) : String :=
  if toLowerStr status = "completed" ∨ toLowerStr status = "success" ∨
      toLowerStr status = "online" ∨ toLowerStr status = "running" ∨
      toLowerStr status = "active" then
    "bg-green-100 text-green-800"
  else if toLowerStr status = "error" ∨ toLowerStr status = "failed" ∨
      toLowerStr status = "offline" ∨ toLowerStr status = "emergency" then
    "bg-red-100 text-red-800"
  else if toLowerStr status = "processing" ∨ toLowerStr status = "warning" ∨
      toLowerStr status = "inproduction" then
    "bg-blue-100 text-blue-800"
  else if toLowerStr status = "idle" then
    "bg-yellow-100 text-yellow-800"
  else
    "bg-gray-100 text-gray-800"

/-- The case labels of `getStatusIcon`'s `switch` (lines 146-159): a status
whose lowercasing is outside this list hits the `default` branch. -/
def iconVocab : List String :=
  ["completed", "success", "online", "running", "active",
   "error", "failed", "offline", "emergency", "warning", "idle"]

/-- The `ConnectionState` of the manager, the value of the `connectionStatus`
state cell (line 49). -/
inductive ConnStatus where
  | disconnected
  | connecting
  | connected
deriving DecidableEq, Repr

/-- The page-level controller state of `SignalRClient` (lines 43-50) together
with the ghost transport state needed to count live connections:

* `connection`, `isConnected`, `userId`, `serverUrl`, `logs`,
  `connectionStatus` are the `useState` cells (lines 44-49); `connectionRef`
  is `connectionRef.current` (line 50).  Connections are named by `Nat` ids.
* `conns` lists every transport connection constructed by
  `new HubConnectionBuilder().withUrl(...).build()` (lines 62-68), as
  (id, url) in construction order; `nextId` supplies fresh ids.
* `live` lists the ids of transports that completed `start()` successfully
  and have not been stopped or closed — the live transport connections.
* `pendingStart` holds the id of a connection whose `await start()`
  (line 101) has been issued but has not resolved yet.
* `alerts` collects the messages passed to `alert(...)`, newest first. -/
structure World where
  connection : Option Nat
  isConnected : Bool
  userId : String
  serverUrl : String
  logs : List MachineLog
  connectionStatus : ConnStatus
  connectionRef : Option Nat
  conns : List (Nat × String)
  live : List Nat
  pendingStart : Option Nat
  alerts : List String
  nextId : Nat
deriving DecidableEq, Repr

/-- The initial state of the component (lines 44-50): everything empty or
disconnected, `serverUrl` preset to the Azure hub URL. -/
def initialWorld : World where
  connection := none
  isConnected := false
  userId := ""
  serverUrl := "https://mms-api-fbabadckhjdybmg7.westus2-01.azurewebsites.net/machineHub"
  logs := []
  connectionStatus := ConnStatus.disconnected
  connectionRef := none
  conns := []
  live := []
  pendingStart := none
  alerts := []
  nextId := 0

/-- The blank-identity guard `!userId.trim()` (line 53): the trimmed string
is empty exactly when the identity is empty or consists only of whitespace,
i.e. every character is whitespace.  Stated over the character list so it
evaluates by kernel reduction. -/
def isBlank (s : String) : Bool :=
  s.data.all Char.isWhitespace

/-- `connectToHub` up to and including the `await newConnection.start()` of
line 101 (lines 52-101): reject a blank user id with an alert (lines 53-56),
otherwise set status to `"connecting"` (line 59), construct a connection for
`` `${serverUrl}?user_id=${userId}` `` (lines 62-68, handler registration on
lines 71-98 changes no state), and issue `start()`, now awaiting resolution. -/
def connectToHub (w : World) : World :=
  if isBlank w.userId then
    { w with alerts := "Please enter a valid User ID" :: w.alerts }
  else
    { w with
        connectionStatus := ConnStatus.connecting
        conns := w.conns ++ [(w.nextId, w.serverUrl ++ "?user_id=" ++ w.userId)]
        pendingStart := some w.nextId
        nextId := w.nextId + 1 }

/-- The continuation of `connectToHub` after `await newConnection.start()`
resolves.  On success (lines 104-107): store the handle in `connection` and
`connectionRef`, mark connected; the transport is now live.  On failure (the
`catch` of lines 108-112): status back to `"disconnected"` and an alert; the
handle is not stored and the transport never became live. -/
def resolveStart (ok : Bool) (w : World) : World :=
  match w.pendingStart with
  | none => w
  | some cid =>
    if ok then
      { w with
          connection := some cid
          connectionRef := some cid
          isConnected := true
          connectionStatus := ConnStatus.connected
          live := cid :: w.live
          pendingStart := none }
    else
      { w with
          connectionStatus := ConnStatus.disconnected
          alerts := "Failed to connect to SignalR hub. Please check the server URL and try again." :: w.alerts
          pendingStart := none }

/-- `disconnectFromHub` (lines 115-129): no-op when `connectionRef.current`
is null; otherwise `await stop()` — which tears the transport down whether or
not it throws (`stopOk` is the outcome; the `catch` only logs) — and then the
`finally` block (lines 122-127) unconditionally nulls both handles and marks
the manager disconnected. -/
def disconnectFromHub (stopOk : Bool) (w : World) : World :=
  match w.connectionRef with
  | none => w
  | some c =>
    { w with
        live := w.live.erase c
        connection := none
        connectionRef := none
        isConnected := false
        connectionStatus := ConnStatus.disconnected }

/-- `clearLogs` (lines 131-133): `setLogs([])`. -/
def clearLogs (w : World) : World :=
  { w with logs := [] }

/-- The `onclose` callback (lines 83-87), fired when a live transport closes:
the transport is no longer live; `setIsConnected(false)`,
`setConnectionStatus("disconnected")`. -/
def onCloseEvt (c : Nat) (w : World) : World :=
  if c ∈ w.live then
    { w with
        live := w.live.erase c
        isConnected := false
        connectionStatus := ConnStatus.disconnected }
  else w

/-- The `onreconnecting` callback (lines 89-92), fired when a live
transport's automatic reconnect engages: `setConnectionStatus("connecting")`
(note: `isConnected` stays true, so the Disconnect button stays visible). -/
def onReconnectingEvt (c : Nat) (w : World) : World :=
  if c ∈ w.live then
    { w with connectionStatus := ConnStatus.connecting }
  else w

/-- The `onreconnected` callback (lines 94-98): `setIsConnected(true)`,
`setConnectionStatus("connected")`. -/
def onReconnectedEvt (c : Nat) (w : World) : World :=
  if c ∈ w.live then
    { w with
        isConnected := true
        connectionStatus := ConnStatus.connected }
  else w

/-- The `onChange` handler of the User ID input (lines 219-225); the input is
disabled while `isConnected`. -/
def setUserIdInput (s : String) (w : World) : World :=
  if w.isConnected then w else { w with userId := s }

/-- The `onChange` handler of the Server URL input (lines 209-215); the input
is disabled while `isConnected`. -/
def setServerUrlInput (s : String) (w : World) : World :=
  if w.isConnected then w else { w with serverUrl := s }

/-- The events the page reacts to: user interactions as the rendered UI
exposes them, and transport callbacks. -/
inductive UIEvent where
  | clickConnect
  | startResolved (ok : Bool)
  | clickDisconnect (stopOk : Bool)
  | clickClear
  | receive (response : Option UpdateResponse) (now : Nat)
  | transportClosed (c : Nat)
  | transportReconnecting (c : Nat)
  | transportReconnected (c : Nat)
  | editUserId (s : String)
  | editServerUrl (s : String)
deriving DecidableEq, Repr

/-- One step of the event loop.  The button wiring of lines 240-254 gates the
user actions: the Connect button exists only when `!isConnected` and is
disabled while `connectionStatus === "connecting"` (lines 240-243); the
Disconnect button exists only when `isConnected` (lines 244-248); the Clear
Logs button exists only when `logs.length > 0` (lines 250-254).  Transport
callbacks fire only for a transport that is live, and a `start()` resolution
only when one is pending (`resolveStart` checks this itself). -/
def uiStep (w : World) (e : UIEvent) : World :=
  match e with
  | UIEvent.clickConnect =>
    if w.isConnected then w
    else if w.connectionStatus = ConnStatus.connecting then w
    else connectToHub w
  | UIEvent.startResolved ok => resolveStart ok w
  | UIEvent.clickDisconnect stopOk =>
    if w.isConnected then disconnectFromHub stopOk w else w
  | UIEvent.clickClear =>
    if w.logs.length > 0 then clearLogs w else w
  | UIEvent.receive response now =>
    { w with logs := onReceiveMachineUpdate response now w.logs }
  | UIEvent.transportClosed c => onCloseEvt c w
  | UIEvent.transportReconnecting c => onReconnectingEvt c w
  | UIEvent.transportReconnected c => onReconnectedEvt c w
  | UIEvent.editUserId s => setUserIdInput s w
  | UIEvent.editServerUrl s => setServerUrlInput s w

/-- Run the event loop from a state over a list of events. -/
def runUI (w : World) (es : List UIEvent) : World :=
  es.foldl uiStep w

/-- A sample inbound machine record; its own `timestamp` field is set, to
exercise the arrival-stamp overwrite. -/
def sampleData : MachineLog where
  id := "m1"
  machineId := "M-01"
  customerId := "c1"
  name := "Mill 1"
  userId := "u1"
  color := "green"
  status := "Online"
  statusSummary := none
  timestamp := some 999

/-- C4: for every identity string that is empty or consists only of
whitespace (the `!userId.trim()` guard fires), `connectToHub` surfaces a
user-visible error alert, leaves `ConnectionState` unchanged, constructs no
connection object, and issues no network call (no `start()` is pending, no
transport becomes live): the only change is the alert. -/
theorem connect_blank_identity_rejected (w : World) (h : isBlank w.userId = true) :
    connectToHub w = { w with alerts := "Please enter a valid User ID" :: w.alerts } ∧
    (connectToHub w).connectionStatus = w.connectionStatus ∧
    (connectToHub w).conns = w.conns ∧
    (connectToHub w).pendingStart = w.pendingStart ∧
    (connectToHub w).live = w.live ∧
    (connectToHub w).connectionRef = w.connectionRef ∧
    (connectToHub w).alerts = "Please enter a valid User ID" :: w.alerts := by
  simp [connectToHub, h]

/-- Witness for C4 at the concrete whitespace-only identity `"  "`. -/
theorem connect_blank_identity_rejected_witness :
    isBlank ({ initialWorld with userId := "  " } : World).userId = true ∧
    (connectToHub { initialWorld with userId := "  " }).connectionStatus =
      ({ initialWorld with userId := "  " } : World).connectionStatus ∧
    (connectToHub { initialWorld with userId := "  " }).conns = [] :=
  ⟨by decide,
   (connect_blank_identity_rejected { initialWorld with userId := "  " } (by decide)).2.1,
   (connect_blank_identity_rejected { initialWorld with userId := "  " } (by decide)).2.2.1⟩

/-- C5: an inbound push event whose payload is missing the data envelope
(the payload itself is null/undefined, or its `data` field is) is silently
dropped: the handler returns the buffer unchanged (same length, same
contents, no partial record).  `onReceiveMachineUpdate` is a total function,
so no exception escapes the handler. -/
theorem malformed_payload_dropped (response : Option UpdateResponse) (now : Nat)
    (logs : List MachineLog)
    (h : response = none ∨ ∃ r, response = some r ∧ r.data = none) :
    onReceiveMachineUpdate response now logs = logs := by
  rcases h with h | ⟨r, hr, hd⟩
  · simp [onReceiveMachineUpdate, h]
  · simp [onReceiveMachineUpdate, hr, hd]

/-- Witness for C5 at the concrete payload `some { data := none }` and a
concrete one-element buffer. -/
theorem malformed_payload_dropped_witness :
    ((some { data := none } : Option UpdateResponse) = none ∨
      ∃ r, (some { data := none } : Option UpdateResponse) = some r ∧ r.data = none) ∧
    onReceiveMachineUpdate (some { data := none }) 7 [sampleData] = [sampleData] :=
  ⟨Or.inr ⟨{ data := none }, rfl, rfl⟩,
   malformed_payload_dropped (some { data := none }) 7 [sampleData]
     (Or.inr ⟨{ data := none }, rfl, rfl⟩)⟩

/-- C6: an inbound push event whose payload carries the data envelope
prepends to the buffer a record copying every field of the payload's data
object, with `timestamp` set to the arrival instant — overwriting any
timestamp the payload itself carried — followed by the previous contents
truncated to the first 49 entries (so the buffer stays within the maximum
size of 50). -/
theorem envelope_payload_prepended (r : UpdateResponse) (d : MachineLog)
    (now : Nat) (logs : List MachineLog) (h : r.data = some d) :
    onReceiveMachineUpdate (some r) now logs =
      { id := d.id, machineId := d.machineId, customerId := d.customerId,
        name := d.name, userId := d.userId, color := d.color,
        status := d.status, statusSummary := d.statusSummary,
        timestamp := some now } :: logs.take 49 := by
  cases r with
  | mk data =>
    cases h
    rfl

/-- Witness for C6: a concrete payload whose data object carries
`timestamp = some 999`; the inserted head carries the arrival instant 5
instead. -/
theorem envelope_payload_prepended_witness :
    (UpdateResponse.mk (some sampleData)).data = some sampleData ∧
    onReceiveMachineUpdate (some (UpdateResponse.mk (some sampleData))) 5 [] =
      [{ id := "m1", machineId := "M-01", customerId := "c1", name := "Mill 1",
         userId := "u1", color := "green", status := "Online",
         statusSummary := none, timestamp := some 5 }] :=
  ⟨rfl, envelope_payload_prepended (UpdateResponse.mk (some sampleData)) sampleData 5 [] rfl⟩

/-- C8: calling `disconnectFromHub` with no stored connection handle is a
no-op (and raises no error — the function is total); with a stored handle it
transitions the manager to Disconnected and nulls both handles on every exit
path — the result is identical whether the underlying graceful close
succeeds or throws. -/
theorem disconnect_cleanup (w : World) (stopOk : Bool) :
    (w.connectionRef = none → disconnectFromHub stopOk w = w) ∧
    (∀ c, w.connectionRef = some c →
      (disconnectFromHub stopOk w).connectionStatus = ConnStatus.disconnected ∧
      (disconnectFromHub stopOk w).connectionRef = none ∧
      (disconnectFromHub stopOk w).connection = none ∧
      (disconnectFromHub stopOk w).isConnected = false ∧
      (disconnectFromHub stopOk w).live = w.live.erase c) ∧
    disconnectFromHub true w = disconnectFromHub false w := by
  refine ⟨fun h => by simp [disconnectFromHub, h], fun c h => ?_, ?_⟩
  · simp [disconnectFromHub, h]
  · cases hw : w.connectionRef <;> simp [disconnectFromHub, hw]

/-- Witness for C8: a concrete connected world (handle 0 stored) and a
concrete disconnected world. -/
theorem disconnect_cleanup_witness :
    ((resolveStart true (connectToHub { initialWorld with userId := "u1" })).connectionRef = some 0 ∧
      (disconnectFromHub true (resolveStart true (connectToHub { initialWorld with userId := "u1" }))).connectionStatus = ConnStatus.disconnected ∧
      (disconnectFromHub true (resolveStart true (connectToHub { initialWorld with userId := "u1" }))).connectionRef = none) ∧
    (initialWorld.connectionRef = none ∧ disconnectFromHub false initialWorld = initialWorld) :=
  ⟨⟨by decide,
    ((disconnect_cleanup (resolveStart true (connectToHub { initialWorld with userId := "u1" })) true).2.1 0 (by decide)).1,
    ((disconnect_cleanup (resolveStart true (connectToHub { initialWorld with userId := "u1" })) true).2.1 0 (by decide)).2.1⟩,
   ⟨rfl, (disconnect_cleanup initialWorld false).1 rfl⟩⟩

/-- C10: `clearLogs` makes the buffer empty (length exactly 0) and changes
nothing else: connection state, both connection handles, endpoint URL,
identity, constructed/live transports, pending start and alerts are all
unchanged. -/
theorem clear_logs_frame (w : World) :
    clearLogs w = { w with logs := [] } ∧
    (clearLogs w).logs.length = 0 ∧
    (clearLogs w).connectionStatus = w.connectionStatus ∧
    (clearLogs w).connectionRef = w.connectionRef ∧
    (clearLogs w).connection = w.connection ∧
    (clearLogs w).isConnected = w.isConnected ∧
    (clearLogs w).serverUrl = w.serverUrl ∧
    (clearLogs w).userId = w.userId ∧
    (clearLogs w).conns = w.conns ∧
    (clearLogs w).live = w.live ∧
    (clearLogs w).pendingStart = w.pendingStart ∧
    (clearLogs w).alerts = w.alerts := by
  simp [clearLogs]

/-- C3 counterexample: start a connect attempt (identity `"u1"`), invoke
`disconnectFromHub` while the `start()` is still in flight, then let the
handshake succeed.  The claim says the manager ends Disconnected; the code
ends Connected, because `connectionRef.current` is still null during the
attempt (it is only assigned on line 105, after `await start()`), so the
in-flight `disconnectFromHub` is a no-op and cancels nothing. -/
theorem disconnect_during_connect_counterexample :
    (resolveStart true (disconnectFromHub true (connectToHub { initialWorld with userId := "u1" }))).connectionStatus ≠
      ConnStatus.disconnected := by
  decide

/-- C3 amended: if `disconnect()` is invoked while a connect attempt is in
flight and no handle from an earlier connection is still stored, it is a
no-op; once the in-flight attempt resolves, the manager is Connected on
handshake success — with the new transport's handle stored and the transport
live, so nothing is abandoned — and Disconnected on handshake failure.
Only on failure does the manager end Disconnected. -/
theorem disconnect_during_connect_amended (w : World) (cid : Nat) (stopOk : Bool)
    (hp : w.pendingStart = some cid) (hr : w.connectionRef = none) :
    disconnectFromHub stopOk w = w ∧
    (resolveStart true (disconnectFromHub stopOk w)).connectionStatus = ConnStatus.connected ∧
    (resolveStart true (disconnectFromHub stopOk w)).connectionRef = some cid ∧
    (resolveStart true (disconnectFromHub stopOk w)).live = cid :: w.live ∧
    (resolveStart false (disconnectFromHub stopOk w)).connectionStatus = ConnStatus.disconnected ∧
    (resolveStart false (disconnectFromHub stopOk w)).connectionRef = none := by
  have hno : disconnectFromHub stopOk w = w := by simp [disconnectFromHub, hr]
  refine ⟨hno, ?_, ?_, ?_, ?_, ?_⟩ <;> rw [hno] <;> simp [resolveStart, hp, hr]

/-- Witness for the amended C3 at the concrete in-flight world reached by
`connectToHub` from a fresh page with identity `"u1"`. -/
theorem disconnect_during_connect_amended_witness :
    ((connectToHub { initialWorld with userId := "u1" }).pendingStart = some 0 ∧
      (connectToHub { initialWorld with userId := "u1" }).connectionRef = none) ∧
    (disconnectFromHub true (connectToHub { initialWorld with userId := "u1" }) =
      connectToHub { initialWorld with userId := "u1" } ∧
     (resolveStart true (disconnectFromHub true (connectToHub { initialWorld with userId := "u1" }))).connectionStatus =
       ConnStatus.connected) :=
  ⟨⟨by decide, by decide⟩,
   (disconnect_during_connect_amended (connectToHub { initialWorld with userId := "u1" }) 0 true
      (by decide) (by decide)).1,
   ((disconnect_during_connect_amended (connectToHub { initialWorld with userId := "u1" }) 0 true
      (by decide) (by decide)).2.1)⟩

/-- C7: when the handshake of a pending connect attempt fails (`resolveStart
false`, the `catch` of lines 108-112), the manager transitions to
Disconnected and surfaces a user-visible alert; it does not retry
automatically — no start stays pending, no new connection is constructed,
no handle is stored and no transport is live. -/
theorem handshake_failure_no_retry (w : World) (cid : Nat)
    (hp : w.pendingStart = some cid) (hr : w.connectionRef = none) (hl : w.live = []) :
    (resolveStart false w).connectionStatus = ConnStatus.disconnected ∧
    (resolveStart false w).alerts =
      "Failed to connect to SignalR hub. Please check the server URL and try again." :: w.alerts ∧
    (resolveStart false w).connectionRef = none ∧
    (resolveStart false w).connection = w.connection ∧
    (resolveStart false w).live = [] ∧
    (resolveStart false w).pendingStart = none ∧
    (resolveStart false w).conns = w.conns := by
  simp [resolveStart, hp, hr, hl]

/-- Witness for C7 at the concrete in-flight world with identity `"u1"`. -/
theorem handshake_failure_no_retry_witness :
    ((connectToHub { initialWorld with userId := "u1" }).pendingStart = some 0 ∧
      (connectToHub { initialWorld with userId := "u1" }).connectionRef = none ∧
      (connectToHub { initialWorld with userId := "u1" }).live = []) ∧
    ((resolveStart false (connectToHub { initialWorld with userId := "u1" })).connectionStatus =
       ConnStatus.disconnected ∧
     (resolveStart false (connectToHub { initialWorld with userId := "u1" })).pendingStart = none) :=
  ⟨⟨by decide, by decide, by decide⟩,
   (handshake_failure_no_retry (connectToHub { initialWorld with userId := "u1" }) 0
      (by decide) (by decide) (by decide)).1,
   (handshake_failure_no_retry (connectToHub { initialWorld with userId := "u1" }) 0
      (by decide) (by decide) (by decide)).2.2.2.2.2.1⟩

/-- C9: the status mappings match case-insensitively (statuses with the same
lowercasing map identically, in both functions); every status whose
lowercasing is outside `getStatusIcon`'s recognized vocabulary falls into
the default bucket, which is the same icon as `"idle"` and `"warning"` (the
yellow alert icon — there is no distinct unknown icon); `"Emergency"` maps
to the failure-like red icon; and `getStatusColor "InProduction"` is the
processing-like blue styling, distinct from both the success-like and the
failure-like stylings. -/
theorem status_mapping_policy (s t : String) (h : toLowerStr s = toLowerStr t) :
    getStatusIcon s = getStatusIcon t ∧
    getStatusColor s = getStatusColor t ∧
    (toLowerStr s ∉ iconVocab →
      getStatusIcon s = getStatusIcon "idle" ∧
      getStatusIcon s = getStatusIcon "warning" ∧
      getStatusIcon s = Icon.alertCircleYellow) ∧
    getStatusIcon "Emergency" = Icon.xCircleRed ∧
    getStatusColor "InProduction" = "bg-blue-100 text-blue-800" ∧
    getStatusColor "InProduction" ≠ "bg-green-100 text-green-800" ∧
    getStatusColor "InProduction" ≠ "bg-red-100 text-red-800" := by
  refine ⟨by simp only [getStatusIcon, h], by simp only [getStatusColor, h],
    fun hv => ?_, by decide, by decide, by decide, by decide⟩
  simp only [iconVocab, List.mem_cons, List.not_mem_nil, or_false, not_or] at hv
  obtain ⟨h1, h2, h3, h4, h5, h6, h7, h8, h9, h10, h11⟩ := hv
  refine ⟨?_, ?_, ?_⟩ <;>
    simp [getStatusIcon, h1, h2, h3, h4, h5, h6, h7, h8, h9, h10, h11] <;> decide

/-- Witness for C9 at the unrecognized status `"Maintenance"` (and `t` a
case variant of it). -/
theorem status_mapping_policy_witness :
    toLowerStr "Maintenance" = toLowerStr "MAINTENANCE" ∧
    toLowerStr "Maintenance" ∉ iconVocab ∧
    getStatusIcon "Maintenance" = getStatusIcon "MAINTENANCE" ∧
    getStatusIcon "Maintenance" = getStatusIcon "idle" ∧
    getStatusIcon "Maintenance" = Icon.alertCircleYellow :=
  ⟨by decide, by decide,
   (status_mapping_policy "Maintenance" "MAINTENANCE" (by decide)).1,
   ((status_mapping_policy "Maintenance" "MAINTENANCE" (by decide)).2.2.1 (by decide)).1,
   ((status_mapping_policy "Maintenance" "MAINTENANCE" (by decide)).2.2.1 (by decide)).2.2⟩

/-- `a` is strictly newer than `b`: whatever timestamps the two records
carry, `a`'s is strictly later. -/
def strictlyNewer (a b : MachineLog) : Prop :=
  ∀ ta tb, a.timestamp = some ta → b.timestamp = some tb → tb < ta

/-- Invariant of the update handler: delivering any sequence of events whose
arrival instants strictly increase, to a buffer of length at most 50 whose
records are stamped before all the new arrivals and strictly newest-first,
yields a buffer of length at most 50 whose records are all stamped and
strictly newest-first. -/
theorem runUpdates_inv (events : List (Option UpdateResponse × Nat)) :
    ∀ (buf : List MachineLog) (bound : Nat),
      events.Pairwise (fun a b => a.2 < b.2) →
      (∀ e ∈ events, bound ≤ e.2) →
      buf.length ≤ 50 →
      (∀ l ∈ buf, ∃ t, l.timestamp = some t ∧ t < bound) →
      buf.Pairwise strictlyNewer →
      (runUpdates events buf).length ≤ 50 ∧
      (∀ l ∈ runUpdates events buf, ∃ t, l.timestamp = some t) ∧
      (runUpdates events buf).Pairwise strictlyNewer := by
  induction events with
  | nil =>
    intro buf bound _ _ hlen hmem hpw
    exact ⟨hlen, fun l hl => (hmem l hl).imp fun t ht => ht.1, hpw⟩
  | cons e rest ih =>
    obtain ⟨resp, t⟩ := e
    intro buf bound hpair hbound hlen hmem hpw
    obtain ⟨hhead, hrest⟩ := List.pairwise_cons.mp hpair
    have hbt : bound ≤ t := hbound ⟨resp, t⟩ (List.mem_cons_self _ _)
    have hmem1 : ∀ l ∈ buf, ∃ ts, l.timestamp = some ts ∧ ts < t + 1 := by
      intro l hl
      obtain ⟨ts, hts, hlt⟩ := hmem l hl
      exact ⟨ts, hts, Nat.lt_succ_of_lt (Nat.lt_of_lt_of_le hlt hbt)⟩
    have hb1 : ∀ f ∈ rest, t + 1 ≤ f.2 := fun f hf => Nat.succ_le_of_lt (hhead f hf)
    have hrun : runUpdates ((resp, t) :: rest) buf =
        runUpdates rest (onReceiveMachineUpdate resp t buf) := rfl
    rw [hrun]
    rcases resp with _ | r
    · exact ih buf (t + 1) hrest hb1 hlen hmem1 hpw
    · rcases hd : r.data with _ | d
      · have hsame : onReceiveMachineUpdate (some r) t buf = buf := by
          cases r
          cases hd
          rfl
        rw [hsame]
        exact ih buf (t + 1) hrest hb1 hlen hmem1 hpw
      · have hins : onReceiveMachineUpdate (some r) t buf =
            { d with timestamp := some t } :: buf.take 49 := by
          cases r
          cases hd
          rfl
        rw [hins]
        apply ih ({ d with timestamp := some t } :: buf.take 49) (t + 1) hrest hb1
        · simp only [List.length_cons, List.length_take]
          omega
        · intro l hl
          rcases List.mem_cons.mp hl with hl | hl
          · exact ⟨t, by rw [hl], Nat.lt_succ_self t⟩
          · exact hmem1 l (List.take_subset 49 buf hl)
        · refine List.pairwise_cons.mpr ⟨?_, hpw.sublist (List.take_sublist 49 buf)⟩
          intro b hb ta tb hta htb
          obtain ⟨tsb, htsb, hltb⟩ := hmem b (List.take_subset 49 buf hb)
          have h1 : ta = t := by
            have : some t = some ta := hta
            exact (Option.some.inj this).symm
          have h2 : tb = tsb := by
            rw [htsb] at htb
            exact (Option.some.inj htb).symm
          rw [h1, h2]
          exact Nat.lt_of_lt_of_le hltb hbt

/-- C1: over every sequence of inbound update events with strictly increasing
arrival instants, starting from the empty buffer: the buffer length never
exceeds 50; the buffer is newest-first (element `i` arrived strictly later
than element `i+1`); and an insertion performed when the buffer is at
capacity 50 evicts the oldest (last) entry. -/
theorem log_buffer_bounded_newest_first (events : List (Option UpdateResponse × Nat))
    (h : List.Pairwise (· < ·) (events.map Prod.snd)) :
    (runUpdates events []).length ≤ 50 ∧
    (∀ i (hi : i + 1 < (runUpdates events []).length),
      ∃ ti tj,
        ((runUpdates events []).get ⟨i, Nat.lt_of_succ_lt hi⟩).timestamp = some ti ∧
        ((runUpdates events []).get ⟨i + 1, hi⟩).timestamp = some tj ∧
        tj < ti) ∧
    (∀ (buf : List MachineLog) (r : UpdateResponse) (d : MachineLog) (now : Nat),
      buf.length = 50 → r.data = some d →
      onReceiveMachineUpdate (some r) now buf =
        { d with timestamp := some now } :: buf.dropLast) := by
  have hp : events.Pairwise (fun a b => a.2 < b.2) := List.pairwise_map.mp h
  obtain ⟨hlen, hall, hpw⟩ := runUpdates_inv events [] 0 hp
    (fun e _ => Nat.zero_le _) (by simp) (by simp) List.Pairwise.nil
  refine ⟨hlen, ?_, ?_⟩
  · intro i hi
    have h1 : i < (runUpdates events []).length := Nat.lt_of_succ_lt hi
    have rel := List.pairwise_iff_get.mp hpw ⟨i, h1⟩ ⟨i + 1, hi⟩ (Nat.lt_succ_self i)
    obtain ⟨ti, hti⟩ := hall _ (List.get_mem _ i h1)
    obtain ⟨tj, htj⟩ := hall _ (List.get_mem _ (i + 1) hi)
    exact ⟨ti, tj, hti, htj, rel ti tj hti htj⟩
  · intro buf r d now h50 hd
    have hins : onReceiveMachineUpdate (some r) now buf =
        { d with timestamp := some now } :: buf.take 49 := by
      cases r
      cases hd
      rfl
    rw [hins, List.dropLast_eq_take, h50]

/-- Witness for C1: three concrete events (the middle one malformed) with
increasing arrival instants, and eviction on a concrete 50-entry buffer. -/
theorem log_buffer_bounded_newest_first_witness :
    List.Pairwise (· < ·)
      (([(some (UpdateResponse.mk (some sampleData)), 1),
         (none, 2),
         (some (UpdateResponse.mk (some sampleData)), 3)] :
        List (Option UpdateResponse × Nat)).map Prod.snd) ∧
    (runUpdates
      [(some (UpdateResponse.mk (some sampleData)), 1),
       (none, 2),
       (some (UpdateResponse.mk (some sampleData)), 3)] []).length ≤ 50 ∧
    onReceiveMachineUpdate (some (UpdateResponse.mk (some sampleData))) 7
        (List.replicate 50 sampleData) =
      { sampleData with timestamp := some 7 } :: (List.replicate 50 sampleData).dropLast :=
  ⟨by decide,
   (log_buffer_bounded_newest_first _ (by decide)).1,
   (log_buffer_bounded_newest_first
      [(some (UpdateResponse.mk (some sampleData)), 1),
       (none, 2),
       (some (UpdateResponse.mk (some sampleData)), 3)] (by decide)).2.2
     (List.replicate 50 sampleData) (UpdateResponse.mk (some sampleData)) sampleData 7
     (by simp) rfl⟩

/-- Reachability invariant of the event loop: at most one live transport; any
live transport is the one whose handle is stored in `connectionRef`; when the
UI shows disconnected (`isConnected = false`) no transport is live; while a
`start()` is pending the UI is not connected and the status is
`"connecting"` (so the Connect button is disabled); and status
`"connected"` implies `isConnected` (so the Connect button is not rendered). -/
def ReachInv (w : World) : Prop :=
  w.live.length ≤ 1 ∧
  (∀ c ∈ w.live, w.connectionRef = some c) ∧
  (w.isConnected = false → w.live = []) ∧
  (∀ cid, w.pendingStart = some cid →
    w.isConnected = false ∧ w.connectionStatus = ConnStatus.connecting) ∧
  (w.connectionStatus = ConnStatus.connected → w.isConnected = true)

theorem inv_initialWorld : ReachInv initialWorld := by
  refine ⟨by simp [initialWorld], ?_, ?_, ?_, ?_⟩ <;> simp [initialWorld]

/-- Erasing `c` from a list of length at most one whose members all equal `c`
empties it. -/
theorem erase_singleton_eq_nil {l : List Nat} {c : Nat}
    (hlen : l.length ≤ 1) (hall : ∀ x ∈ l, x = c) : l.erase c = [] := by
  match l with
  | [] => rfl
  | [a] =>
    have ha : a = c := hall a (List.mem_cons_self a [])
    subst ha
    simp
  | a :: b :: tl => simp at hlen

/-- Every step of the event loop preserves the reachability invariant. -/
theorem inv_uiStep (w : World) (e : UIEvent) (hw : ReachInv w) : ReachInv (uiStep w e) := by
  obtain ⟨hA, hB, hC, hD, hE⟩ := hw
  cases e with
  | clickConnect =>
    show ReachInv (if w.isConnected then w
      else if w.connectionStatus = ConnStatus.connecting then w else connectToHub w)
    cases hic : w.isConnected with
    | true => simpa [hic] using ⟨hA, hB, hC, hD, hE⟩
    | false =>
      by_cases hst : w.connectionStatus = ConnStatus.connecting
      · simpa [hic, hst] using ⟨hA, hB, hC, hD, hE⟩
      · simp only [hic, hst, Bool.false_eq_true, if_false]
        unfold connectToHub
        by_cases hbl : isBlank w.userId
        · simpa [hbl] using ⟨hA, hB, hC, hD, hE⟩
        · simp only [hbl, if_false]
          exact ⟨hA, hB, fun _ => hC hic, fun cid _ => ⟨hic, rfl⟩, fun hco => by cases hco⟩
  | startResolved ok =>
    show ReachInv (resolveStart ok w)
    cases hp : w.pendingStart with
    | none =>
      have hres : resolveStart ok w = w := by
        unfold resolveStart
        rw [hp]
      rw [hres]
      exact ⟨hA, hB, hC, hD, hE⟩
    | some cid =>
      obtain ⟨hic, _⟩ := hD cid hp
      have hl : w.live = [] := hC hic
      cases ok with
      | true =>
        have hres : resolveStart true w =
            { w with
                connection := some cid
                connectionRef := some cid
                isConnected := true
                connectionStatus := ConnStatus.connected
                live := cid :: w.live
                pendingStart := none } := by
          unfold resolveStart
          rw [hp]
          rfl
        rw [hres]
        refine ⟨by simp [hl], ?_, by simp, by simp, fun _ => rfl⟩
        intro c hc
        rw [hl] at hc
        have : c = cid := by simpa using hc
        rw [this]
      | false =>
        have hres : resolveStart false w =
            { w with
                connectionStatus := ConnStatus.disconnected
                alerts := "Failed to connect to SignalR hub. Please check the server URL and try again." :: w.alerts
                pendingStart := none } := by
          unfold resolveStart
          rw [hp]
          rfl
        rw [hres]
        refine ⟨by simp [hl], by simp [hl], fun _ => hl, by simp, by simp⟩
  | clickDisconnect stopOk =>
    show ReachInv (if w.isConnected then disconnectFromHub stopOk w else w)
    cases hic : w.isConnected with
    | false => simpa using ⟨hA, hB, hC, hD, hE⟩
    | true =>
      simp only [if_true]
      cases hr : w.connectionRef with
      | none =>
        have hres : disconnectFromHub stopOk w = w := by
          unfold disconnectFromHub
          rw [hr]
        rw [hres]
        exact ⟨hA, hB, hC, hD, hE⟩
      | some c =>
        have hers : w.live.erase c = [] := by
          refine erase_singleton_eq_nil hA ?_
          intro x hx
          have := hB x hx
          rw [hr] at this
          exact Option.some.inj this.symm
        have hres : disconnectFromHub stopOk w =
            { w with
                live := w.live.erase c
                connection := none
                connectionRef := none
                isConnected := false
                connectionStatus := ConnStatus.disconnected } := by
          unfold disconnectFromHub
          rw [hr]
        rw [hres]
        refine ⟨by simp [hers], ?_, fun _ => hers, ?_, by simp⟩
        · intro x hx
          rw [hers] at hx
          cases hx
        · intro cid hp
          obtain ⟨hic2, _⟩ := hD cid hp
          rw [hic] at hic2
          cases hic2
  | clickClear =>
    show ReachInv (if w.logs.length > 0 then clearLogs w else w)
    by_cases hl : w.logs.length > 0
    · simpa [hl, clearLogs] using ⟨hA, hB, hC, hD, hE⟩
    · simpa [hl] using ⟨hA, hB, hC, hD, hE⟩
  | receive response now =>
    exact ⟨hA, hB, hC, hD, hE⟩
  | transportClosed c =>
    show ReachInv (onCloseEvt c w)
    unfold onCloseEvt
    by_cases hc : c ∈ w.live
    · have hers : w.live.erase c = [] := by
        refine erase_singleton_eq_nil hA ?_
        intro x hx
        have h1 := hB x hx
        have h2 := hB c hc
        rw [h1] at h2
        exact Option.some.inj h2
      simp only [hc, if_true]
      refine ⟨by simp [hers], ?_, fun _ => hers, ?_, ?_⟩
      · intro x hx
        rw [hers] at hx
        cases hx
      · intro cid hp
        obtain ⟨hic, _⟩ := hD cid hp
        have := hC hic
        rw [this] at hc
        cases hc
      · intro hco
        cases hco
    · simpa [hc] using ⟨hA, hB, hC, hD, hE⟩
  | transportReconnecting c =>
    show ReachInv (onReconnectingEvt c w)
    unfold onReconnectingEvt
    by_cases hc : c ∈ w.live
    · simp only [hc, if_true]
      refine ⟨hA, hB, hC, ?_, ?_⟩
      · intro cid hp
        obtain ⟨hic, _⟩ := hD cid hp
        have := hC hic
        rw [this] at hc
        cases hc
      · intro hco
        cases hco
    · simpa [hc] using ⟨hA, hB, hC, hD, hE⟩
  | transportReconnected c =>
    show ReachInv (onReconnectedEvt c w)
    unfold onReconnectedEvt
    by_cases hc : c ∈ w.live
    · simp only [hc, if_true]
      refine ⟨hA, hB, ?_, ?_, fun _ => rfl⟩
      · intro h
        cases h
      · intro cid hp
        obtain ⟨hic, _⟩ := hD cid hp
        have := hC hic
        rw [this] at hc
        cases hc
    · simpa [hc] using ⟨hA, hB, hC, hD, hE⟩
  | editUserId s =>
    show ReachInv (setUserIdInput s w)
    unfold setUserIdInput
    split
    · exact ⟨hA, hB, hC, hD, hE⟩
    · exact ⟨hA, hB, hC, hD, hE⟩
  | editServerUrl s =>
    show ReachInv (setServerUrlInput s w)
    unfold setServerUrlInput
    split
    · exact ⟨hA, hB, hC, hD, hE⟩
    · exact ⟨hA, hB, hC, hD, hE⟩

/-- The invariant holds in every state the event loop can reach from the
initial page state. -/
theorem inv_runUI (es : List UIEvent) : ReachInv (runUI initialWorld es) := by
  suffices h : ∀ w, ReachInv w → ReachInv (runUI w es) from h initialWorld inv_initialWorld
  induction es with
  | nil => exact fun w hw => hw
  | cons e rest ih => exact fun w hw => ih (uiStep w e) (inv_uiStep w e hw)

/-- C2: in every state the page can reach, at most one live transport
connection exists; and whenever the manager is Connecting or Connected,
a further connect click is a no-op (the Connect button is disabled while
connecting and not rendered while connected), so it creates no second
connection. -/
theorem at_most_one_live_connection (es : List UIEvent) :
    (runUI initialWorld es).live.length ≤ 1 ∧
    ((runUI initialWorld es).connectionStatus = ConnStatus.connecting ∨
        (runUI initialWorld es).connectionStatus = ConnStatus.connected →
      uiStep (runUI initialWorld es) UIEvent.clickConnect = runUI initialWorld es) := by
  obtain ⟨hA, _, _, _, hE⟩ := inv_runUI es
  refine ⟨hA, fun hs => ?_⟩
  show (if (runUI initialWorld es).isConnected then runUI initialWorld es
    else if (runUI initialWorld es).connectionStatus = ConnStatus.connecting
      then runUI initialWorld es
    else connectToHub (runUI initialWorld es)) = runUI initialWorld es
  rcases hs with hs | hs
  · cases hic : (runUI initialWorld es).isConnected
    · simp [hic, hs]
    · simp [hic]
  · rw [hE hs]
    simp

/-- Witness for C2: after editing the identity to `"u1"` and clicking
Connect, the page is in the Connecting state, has no live transport yet,
and a second Connect click changes nothing. -/
theorem at_most_one_live_connection_witness :
    (runUI initialWorld [UIEvent.editUserId "u1", UIEvent.clickConnect]).live.length ≤ 1 ∧
    ((runUI initialWorld [UIEvent.editUserId "u1", UIEvent.clickConnect]).connectionStatus =
        ConnStatus.connecting ∨
      (runUI initialWorld [UIEvent.editUserId "u1", UIEvent.clickConnect]).connectionStatus =
        ConnStatus.connected) ∧
    uiStep (runUI initialWorld [UIEvent.editUserId "u1", UIEvent.clickConnect])
        UIEvent.clickConnect =
      runUI initialWorld [UIEvent.editUserId "u1", UIEvent.clickConnect] :=
  ⟨(at_most_one_live_connection [UIEvent.editUserId "u1", UIEvent.clickConnect]).1,
   Or.inl (by decide),
   (at_most_one_live_connection [UIEvent.editUserId "u1", UIEvent.clickConnect]).2
     (Or.inl (by decide))⟩
